import Mathlib

/-!
Shallow embedding of the nutrition-table application (`src/main.py`).

Numbers are modelled as rationals (`ℚ`); Python's `round(v, 2)` is modelled
as round-half-to-even of `v * 100`, divided by 100.  Fallible operations
return `Except`.  The JSON files are modelled as in-memory lists of the
record shapes the code writes (`to_dict`), with the file-system layer
elided: `salvar_*` produces the stored records, `carregar_*` consumes them.
-/

/-- Python's built-in `round` to zero decimal places: round half to even. -/
def pyRound (q : ℚ) : ℤ :=
  let f : ℤ := ⌊q⌋
  let r : ℚ := q - f
  if r < 1/2 then f
  else if 1/2 < r then f + 1
  else if f % 2 = 0 then f else f + 1

/-- Python's `round(v, 2)` on a rational value. -/
def round2 (v : ℚ) : ℚ := (pyRound (v * 100) : ℚ) / 100

/-- `class Ingrediente` (src/main.py lines 16-35): a name and five
per-gram nutrient coefficients. -/
structure Ingrediente where
  nome : String
  carboidrato_por_g : ℚ
  proteina_por_g : ℚ
  gordura_por_g : ℚ
  fibra_por_g : ℚ
  sodio_por_g : ℚ
deriving DecidableEq, Repr

/-- `class Receita` (src/main.py lines 37-52): a name, a list of
(ingredient, quantity-in-grams) pairs, and the total yield weight. -/
structure Receita where
  nome : String
  ingredientes : List (Ingrediente × ℚ)
  rendimento_total : ℚ
deriving DecidableEq, Repr

/-- The `totais` dictionary built by
`CalculadoraNutricional.calcular_por_porcao` (src/main.py lines 148-155),
with its six keys. -/
@[ext]
structure Totais where
  carboidratos : ℚ
  proteina : ℚ
  gordura : ℚ
  fibra : ℚ
  sodio : ℚ
  calorias : ℚ
deriving DecidableEq, Repr

/-- The all-zero initial `totais` dictionary (src/main.py lines 148-155). -/
def totZero : Totais := ⟨0, 0, 0, 0, 0, 0⟩

/-- One iteration of the inner loop of `calcular_por_porcao`
(src/main.py lines 163-172): add one ingredient's scaled contributions. -/
def contribIngrediente (fator : ℚ) (t : Totais) (par : Ingrediente × ℚ) : Totais :=
  let ingrediente := par.1
  let qtd := par.2
  let quantidade_efetiva := qtd * fator
  { carboidratos := t.carboidratos + quantidade_efetiva * ingrediente.carboidrato_por_g
    proteina := t.proteina + quantidade_efetiva * ingrediente.proteina_por_g
    gordura := t.gordura + quantidade_efetiva * ingrediente.gordura_por_g
    fibra := t.fibra + quantidade_efetiva * ingrediente.fibra_por_g
    sodio := t.sodio + quantidade_efetiva * ingrediente.sodio_por_g
    calorias := t.calorias + (quantidade_efetiva * ingrediente.carboidrato_por_g * 4 +
      quantidade_efetiva * ingrediente.proteina_por_g * 4 +
      quantidade_efetiva * ingrediente.gordura_por_g * 9) }

/-- The outer loop of `calcular_por_porcao` (src/main.py lines 157-172):
for each (recipe, portion) pair, raise if the recipe's total yield is
non-positive, otherwise fold its ingredients into the running totals. -/
def calcLoop : List (Receita × ℚ) → Totais → Except String Totais
  | [], totais => .ok totais
  | (receita, porcao) :: resto, totais =>
    if receita.rendimento_total ≤ 0 then
      .error ("Receita " ++ receita.nome ++ " tem rendimento total invalido")
    else
      let fator := porcao / receita.rendimento_total
      calcLoop resto (receita.ingredientes.foldl (contribIngrediente fator) totais)

/-- Apply `round(v, 2)` to every field, as the return statement
`{k: round(v, 2) for k, v in totais.items()}` does (src/main.py line 174). -/
def roundTotais (t : Totais) : Totais :=
  ⟨round2 t.carboidratos, round2 t.proteina, round2 t.gordura,
   round2 t.fibra, round2 t.sodio, round2 t.calorias⟩

/-- `CalculadoraNutricional.calcular_por_porcao` (src/main.py lines 146-174). -/
def calcular_por_porcao (receitas_porcoes : List (Receita × ℚ)) : Except String Totais :=
  (calcLoop receitas_porcoes totZero).map roundTotais

/-! ### Declarative (specification-side) totals

The following definitions restate the accumulated sums declaratively, to
relate the imperative fold above to closed-form summations. -/

/-- Fieldwise sum of two totals records. -/
def addTotais (a b : Totais) : Totais :=
  ⟨a.carboidratos + b.carboidratos, a.proteina + b.proteina, a.gordura + b.gordura,
   a.fibra + b.fibra, a.sodio + b.sodio, a.calorias + b.calorias⟩

/-- Fieldwise scaling of a totals record by a factor. -/
def scaleTotais (c : ℚ) (t : Totais) : Totais :=
  ⟨c * t.carboidratos, c * t.proteina, c * t.gordura,
   c * t.fibra, c * t.sodio, c * t.calorias⟩

/-- Unscaled nutrient sums of an ingredient list: for each field, the sum
over the list of quantity times the per-gram coefficient. -/
def somaBase (l : List (Ingrediente × ℚ)) : Totais :=
  ⟨(l.map fun p => p.2 * p.1.carboidrato_por_g).sum,
   (l.map fun p => p.2 * p.1.proteina_por_g).sum,
   (l.map fun p => p.2 * p.1.gordura_por_g).sum,
   (l.map fun p => p.2 * p.1.fibra_por_g).sum,
   (l.map fun p => p.2 * p.1.sodio_por_g).sum,
   (l.map fun p => p.2 * p.1.carboidrato_por_g * 4 + p.2 * p.1.proteina_por_g * 4 +
     p.2 * p.1.gordura_por_g * 9).sum⟩

/-- The exact (un-rounded) contribution of one recipe at a given portion:
the ingredient sums scaled by portion divided by total yield. -/
def receitaRaw (receita : Receita) (porcao : ℚ) : Totais :=
  scaleTotais (porcao / receita.rendimento_total) (somaBase receita.ingredientes)

/-- The exact (un-rounded) accumulated totals over a (recipe, portion) list. -/
def rawTotal : List (Receita × ℚ) → Totais
  | [] => totZero
  | par :: resto => addTotais (receitaRaw par.1 par.2) (rawTotal resto)

/-! ### Concrete data used by examples and counterexamples -/

/-- Ingredient A of the spec's worked "Rice" example. -/
def ingredienteA : Ingrediente := ⟨"A", 4/5, 1/10, 1/20, 1/50, 1⟩

/-- Ingredient B of the spec's worked "Rice" example: all coefficients 0. -/
def ingredienteB : Ingrediente := ⟨"B", 0, 0, 0, 0, 0⟩

/-- The spec's worked example: recipe "Rice", 500 g of A and 500 g of B,
total yield 1000 g. -/
def receitaRice : Receita := ⟨"Rice", [(ingredienteA, 500), (ingredienteB, 500)], 1000⟩

/-- A recipe whose carbohydrate total at portion 1 is 0.004 g, which rounds
to 0.00 while its double 0.008 rounds to 0.01. -/
def ingredienteDelta : Ingrediente := ⟨"Delta", 1/250, 0, 0, 0, 0⟩

/-- One gram of `ingredienteDelta`, total yield 1 g. -/
def receitaDelta : Receita := ⟨"Delta", [(ingredienteDelta, 1)], 1⟩

/-! ### Helper lemmas relating the imperative fold to the declarative sums -/

lemma addTotais_totZero_right (t : Totais) : addTotais t totZero = t := by
  ext <;> simp [addTotais, totZero]

lemma addTotais_totZero_left (t : Totais) : addTotais totZero t = t := by
  ext <;> simp [addTotais, totZero]

lemma addTotais_assoc (a b c : Totais) :
    addTotais (addTotais a b) c = addTotais a (addTotais b c) := by
  ext <;> simp [addTotais] <;> ring

lemma foldl_contribIngrediente (fator : ℚ) (l : List (Ingrediente × ℚ)) (t : Totais) :
    l.foldl (contribIngrediente fator) t = addTotais t (scaleTotais fator (somaBase l)) := by
  induction l generalizing t with
  | nil => ext <;> simp [somaBase, scaleTotais, addTotais]
  | cons hd tl ih =>
    rw [List.foldl_cons, ih]
    ext <;> simp [contribIngrediente, somaBase, scaleTotais, addTotais] <;> ring

lemma calcLoop_ok (rp : List (Receita × ℚ)) (t : Totais)
    (h : ∀ p ∈ rp, 0 < p.1.rendimento_total) :
    calcLoop rp t = .ok (addTotais t (rawTotal rp)) := by
  induction rp generalizing t with
  | nil => simp [calcLoop, rawTotal, addTotais_totZero_right]
  | cons hd tl ih =>
    obtain ⟨r, p⟩ := hd
    have h0 : 0 < r.rendimento_total := h (r, p) (List.mem_cons_self _ _)
    have htl : ∀ q ∈ tl, 0 < q.1.rendimento_total :=
      fun q hq => h q (List.mem_cons_of_mem _ hq)
    simp only [calcLoop, if_neg (not_le.mpr h0)]
    rw [foldl_contribIngrediente, ih _ htl]
    simp only [rawTotal, receitaRaw, addTotais_assoc]

lemma calcLoop_error_iff (rp : List (Receita × ℚ)) (t : Totais) :
    (∃ e, calcLoop rp t = .error e) ↔ ∃ p ∈ rp, p.1.rendimento_total ≤ 0 := by
  induction rp generalizing t with
  | nil => simp [calcLoop]
  | cons hd tl ih =>
    obtain ⟨r, p⟩ := hd
    by_cases h0 : r.rendimento_total ≤ 0
    · simp only [calcLoop, if_pos h0]
      constructor
      · intro _
        exact ⟨(r, p), List.mem_cons_self _ _, h0⟩
      · intro _
        exact ⟨_, rfl⟩
    · simp only [calcLoop, if_neg h0]
      rw [ih]
      constructor
      · intro ⟨q, hq, hle⟩
        exact ⟨q, List.mem_cons_of_mem _ hq, hle⟩
      · rintro ⟨q, hq, hle⟩
        rcases List.mem_cons.mp hq with heq | hmem
        · rw [heq] at hle
          exact absurd hle h0
        · exact ⟨q, hmem, hle⟩

lemma except_map_error_iff (f : Totais → Totais) (m : Except String Totais) :
    (∃ e, m.map f = .error e) ↔ ∃ e, m = .error e := by
  cases m <;> simp [Except.map]

lemma calcular_ok (rp : List (Receita × ℚ))
    (h : ∀ p ∈ rp, 0 < p.1.rendimento_total) :
    calcular_por_porcao rp = .ok (roundTotais (rawTotal rp)) := by
  rw [calcular_por_porcao, calcLoop_ok rp totZero h, addTotais_totZero_left]
  rfl

/-! ### Claims about the calculator -/

/-- C1 (counterexample): on the spec's "Rice" example the calculator returns
calories 405, not 725 as the claim states; 405 = 4·80 + 4·10 + 9·5. -/
theorem calc_rice_725_counterexample :
    calcular_por_porcao [(receitaRice, 200)] = .ok ⟨80, 10, 5, 2, 100, 405⟩
    ∧ calcular_por_porcao [(receitaRice, 200)] ≠ .ok ⟨80, 10, 5, 2, 100, 725⟩ := by
  have h : calcular_por_porcao [(receitaRice, 200)] = .ok ⟨80, 10, 5, 2, 100, 405⟩ := by
    norm_num [calcular_por_porcao, calcLoop, contribIngrediente, totZero, roundTotais,
      receitaRice, ingredienteA, ingredienteB, round2, pyRound, Except.map, List.foldl]
  refine ⟨h, ?_⟩
  rw [h]
  intro hc
  have := (Except.ok.injEq _ _).mp hc
  rw [Totais.mk.injEq] at this
  norm_num at this

/-- C1 (amended): for the recipe "Rice" with total yield 1000 g (500 g of
ingredient A, 500 g of the all-zero ingredient B) at portion 200 g, the
calculator returns carbohydrate 80.0, protein 10.0, fat 5.0, fiber 2.0,
sodium 100.0, and calories 405.0 = 4·80 + 4·10 + 9·5. -/
theorem calc_rice_example :
    calcular_por_porcao [(receitaRice, 200)] = .ok ⟨80, 10, 5, 2, 100, 405⟩ := by
  norm_num [calcular_por_porcao, calcLoop, contribIngrediente, totZero, roundTotais,
    receitaRice, ingredienteA, ingredienteB, round2, pyRound, Except.map, List.foldl]

/-- C2: the calculator fails exactly when some listed recipe has a
non-positive total yield, and on the empty list it succeeds with all six
totals equal to 0. -/
theorem calc_error_iff_nonpositive_yield (rp : List (Receita × ℚ)) :
    ((∃ e, calcular_por_porcao rp = .error e) ↔ ∃ p ∈ rp, p.1.rendimento_total ≤ 0)
    ∧ calcular_por_porcao ([] : List (Receita × ℚ)) = .ok ⟨0, 0, 0, 0, 0, 0⟩ := by
  constructor
  · rw [calcular_por_porcao, except_map_error_iff, calcLoop_error_iff]
  · norm_num [calcular_por_porcao, calcLoop, totZero, roundTotais, round2, pyRound,
      Except.map]

/-- C3 (counterexample): a recipe with positive total yield whose returned
carbohydrate total at portion 2 is not twice the one at portion 1, because
rounding to two decimals happens after scaling (0.004 rounds to 0.00 but
0.008 rounds to 0.01). -/
theorem calc_double_portion_counterexample :
    0 < receitaDelta.rendimento_total
    ∧ calcular_por_porcao [(receitaDelta, 1)] = .ok ⟨0, 0, 0, 0, 0, 1/50⟩
    ∧ calcular_por_porcao [(receitaDelta, 2)] = .ok ⟨1/100, 0, 0, 0, 0, 3/100⟩
    ∧ (1/100 : ℚ) ≠ 2 * 0 := by
  refine ⟨by norm_num [receitaDelta], ?_, ?_, by norm_num⟩ <;>
    norm_num [calcular_por_porcao, calcLoop, contribIngrediente, totZero, roundTotais,
      receitaDelta, ingredienteDelta, round2, pyRound, Except.map, List.foldl]

/-- C3 (amended): for every recipe `R` with positive total yield and every
portion `P`, the calculator returns the two-decimal rounding of the
ingredient sums scaled by the factor `P / R.rendimento_total`; these
pre-rounding totals are exactly linear in `P` (doubling `P` doubles each),
though the returned rounded totals themselves need not double. -/
theorem calc_scale_factor_linear (R : Receita) (P : ℚ) (h : 0 < R.rendimento_total) :
    calcular_por_porcao [(R, P)]
      = .ok (roundTotais (scaleTotais (P / R.rendimento_total) (somaBase R.ingredientes)))
    ∧ scaleTotais ((2 * P) / R.rendimento_total) (somaBase R.ingredientes)
      = scaleTotais 2 (scaleTotais (P / R.rendimento_total) (somaBase R.ingredientes)) := by
  constructor
  · rw [calcular_ok [(R, P)] (by simpa using h)]
    simp [rawTotal, receitaRaw, addTotais_totZero_right]
  · ext <;> simp [scaleTotais] <;> ring

/-- Witness for C3 at recipe "Rice" and portion 200. -/
theorem calc_scale_factor_linear_witness :
    0 < receitaRice.rendimento_total
    ∧ (calcular_por_porcao [(receitaRice, 200)]
        = .ok (roundTotais (scaleTotais (200 / receitaRice.rendimento_total)
            (somaBase receitaRice.ingredientes)))
      ∧ scaleTotais ((2 * 200) / receitaRice.rendimento_total)
          (somaBase receitaRice.ingredientes)
        = scaleTotais 2 (scaleTotais (200 / receitaRice.rendimento_total)
            (somaBase receitaRice.ingredientes))) :=
  ⟨by norm_num [receitaRice], calc_scale_factor_linear receitaRice 200 (by norm_num [receitaRice])⟩

/-- C4 (counterexample): two recipe portions whose combined report differs
from the sum of their individual reports: each individual carbohydrate
total rounds to 0.00 while the combined 0.008 rounds to 0.01. -/
theorem calc_additivity_counterexample :
    0 < receitaDelta.rendimento_total
    ∧ calcular_por_porcao [(receitaDelta, 1), (receitaDelta, 1)]
        = .ok ⟨1/100, 0, 0, 0, 0, 3/100⟩
    ∧ calcular_por_porcao [(receitaDelta, 1)] = .ok ⟨0, 0, 0, 0, 0, 1/50⟩
    ∧ (1/100 : ℚ) ≠ 0 + 0 := by
  refine ⟨by norm_num [receitaDelta], ?_, ?_, by norm_num⟩ <;>
    norm_num [calcular_por_porcao, calcLoop, contribIngrediente, totZero, roundTotais,
      receitaDelta, ingredienteDelta, round2, pyRound, Except.map, List.foldl]

/-- C4 (amended): for recipes `R1`, `R2` with positive total yields and
portions `P1`, `P2`, the combined report is the two-decimal rounding of the
sum of the two exact (un-rounded) per-recipe totals, and each singleton
report is the rounding of its own exact total; rounding happens after the
summation, so the combined report need not equal the sum of the two
individually rounded reports. -/
theorem calc_additive_before_rounding (R1 R2 : Receita) (P1 P2 : ℚ)
    (h1 : 0 < R1.rendimento_total) (h2 : 0 < R2.rendimento_total) :
    calcular_por_porcao [(R1, P1), (R2, P2)]
      = .ok (roundTotais (addTotais (receitaRaw R1 P1) (receitaRaw R2 P2)))
    ∧ calcular_por_porcao [(R1, P1)] = .ok (roundTotais (receitaRaw R1 P1))
    ∧ calcular_por_porcao [(R2, P2)] = .ok (roundTotais (receitaRaw R2 P2)) := by
  refine ⟨?_, ?_, ?_⟩
  · rw [calcular_ok [(R1, P1), (R2, P2)] ?_]
    · simp [rawTotal, addTotais_totZero_right]
    · intro p hp
      rcases List.mem_cons.mp hp with h | h
      · rw [h]; exact h1
      · rw [List.mem_singleton.mp h]; exact h2
  · rw [calcular_ok [(R1, P1)] (by simpa using h1)]
    simp [rawTotal, addTotais_totZero_right]
  · rw [calcular_ok [(R2, P2)] (by simpa using h2)]
    simp [rawTotal, addTotais_totZero_right]

/-- Witness for C4 at ("Rice", 200) and ("Delta", 1). -/
theorem calc_additive_before_rounding_witness :
    (0 < receitaRice.rendimento_total ∧ 0 < receitaDelta.rendimento_total)
    ∧ (calcular_por_porcao [(receitaRice, 200), (receitaDelta, 1)]
        = .ok (roundTotais (addTotais (receitaRaw receitaRice 200) (receitaRaw receitaDelta 1)))
      ∧ calcular_por_porcao [(receitaRice, 200)] = .ok (roundTotais (receitaRaw receitaRice 200))
      ∧ calcular_por_porcao [(receitaDelta, 1)] = .ok (roundTotais (receitaRaw receitaDelta 1))) :=
  ⟨⟨by norm_num [receitaRice], by norm_num [receitaDelta]⟩,
    calc_additive_before_rounding receitaRice receitaDelta 200 1
      (by norm_num [receitaRice]) (by norm_num [receitaDelta])⟩

/-- C5: whenever the calculator succeeds, each of the six returned values
is the two-decimal rounding of the corresponding exact accumulated sum. -/
theorem calc_result_is_rounded_sums (rp : List (Receita × ℚ)) (t : Totais)
    (h : calcular_por_porcao rp = .ok t) :
    t.carboidratos = round2 (rawTotal rp).carboidratos
    ∧ t.proteina = round2 (rawTotal rp).proteina
    ∧ t.gordura = round2 (rawTotal rp).gordura
    ∧ t.fibra = round2 (rawTotal rp).fibra
    ∧ t.sodio = round2 (rawTotal rp).sodio
    ∧ t.calorias = round2 (rawTotal rp).calorias := by
  have hpos : ∀ p ∈ rp, 0 < p.1.rendimento_total := by
    by_contra hneg
    push_neg at hneg
    obtain ⟨p, hp, hle⟩ := hneg
    have : ∃ e, calcular_por_porcao rp = .error e := by
      rw [calcular_por_porcao, except_map_error_iff, calcLoop_error_iff]
      exact ⟨p, hp, hle⟩
    obtain ⟨e, he⟩ := this
    rw [h] at he
    exact Except.noConfusion he
  rw [calcular_ok rp hpos] at h
  have ht : t = roundTotais (rawTotal rp) := ((Except.ok.injEq _ _).mp h).symm
  rw [ht]
  exact ⟨rfl, rfl, rfl, rfl, rfl, rfl⟩

/-- Witness for C5 at the "Rice" example. -/
theorem calc_result_is_rounded_sums_witness :
    calcular_por_porcao [(receitaRice, 200)] = .ok ⟨80, 10, 5, 2, 100, 405⟩
    ∧ ((80 : ℚ) = round2 (rawTotal [(receitaRice, 200)]).carboidratos
      ∧ (10 : ℚ) = round2 (rawTotal [(receitaRice, 200)]).proteina
      ∧ (5 : ℚ) = round2 (rawTotal [(receitaRice, 200)]).gordura
      ∧ (2 : ℚ) = round2 (rawTotal [(receitaRice, 200)]).fibra
      ∧ (100 : ℚ) = round2 (rawTotal [(receitaRice, 200)]).sodio
      ∧ (405 : ℚ) = round2 (rawTotal [(receitaRice, 200)]).calorias) :=
  have h : calcular_por_porcao [(receitaRice, 200)] = .ok ⟨80, 10, 5, 2, 100, 405⟩ := by
    norm_num [calcular_por_porcao, calcLoop, contribIngrediente, totZero, roundTotais,
      receitaRice, ingredienteA, ingredienteB, round2, pyRound, Except.map, List.foldl]
  ⟨h, calc_result_is_rounded_sums [(receitaRice, 200)] ⟨80, 10, 5, 2, 100, 405⟩ h⟩

/-! ### Persistence layer (`DataManager`)

The JSON files are modelled as lists of the record shapes the code writes.
`salvar_*` produces the stored records; `carregar_*` consumes them. -/

/-- The record shape `Ingrediente.to_dict` writes (src/main.py lines 26-35). -/
structure IngredienteItem where
  nome : String
  carboidrato_por_g : ℚ
  proteina_por_g : ℚ
  gordura_por_g : ℚ
  fibra_por_g : ℚ
  sodio_por_g : ℚ
deriving DecidableEq, Repr

/-- `Ingrediente.to_dict` (src/main.py lines 26-35). -/
def Ingrediente.to_dict (i : Ingrediente) : IngredienteItem :=
  ⟨i.nome, i.carboidrato_por_g, i.proteina_por_g, i.gordura_por_g,
   i.fibra_por_g, i.sodio_por_g⟩

/-- `DataManager.carregar_ingredientes` (src/main.py lines 59-81): rebuild
an `Ingrediente` from each stored record. -/
def carregar_ingredientes (dados : List IngredienteItem) : List Ingrediente :=
  dados.map fun item =>
    ⟨item.nome, item.carboidrato_por_g, item.proteina_por_g, item.gordura_por_g,
     item.fibra_por_g, item.sodio_por_g⟩

/-- `DataManager.salvar_ingredientes` (src/main.py lines 83-87). -/
def salvar_ingredientes (ingredientes : List Ingrediente) : List IngredienteItem :=
  ingredientes.map Ingrediente.to_dict

/-- The record shape `DataManager.salvar_receitas` writes (src/main.py
lines 121-125): name, (ingredient-name, quantity) pairs, and the total
yield; the yield is optional at load time because old files may lack it
(`item.get('rendimento_total', ...)`, line 109). -/
structure ReceitaItem where
  nome : String
  ingredientes : List (String × ℚ)
  rendimento_total : Option ℚ
deriving DecidableEq, Repr

/-- Resolution of one stored (name, quantity) pair against the ingredient
catalog (src/main.py lines 101-104): `next((i for i in ingredientes if
i.nome == nome_ing), None)`, keeping the pair only when it resolves. -/
def resolveIngrediente (ingredientes : List Ingrediente) (par : String × ℚ) :
    Option (Ingrediente × ℚ) :=
  match ingredientes.find? (fun i => i.nome == par.1) with
  | some ingrediente => some (ingrediente, par.2)
  | none => none

/-- `DataManager.carregar_receitas` (src/main.py lines 89-116): resolve
each stored pair against the catalog, dropping pairs that do not resolve,
and default a missing total yield to the sum of the resolved quantities. -/
def carregar_receitas (ingredientes : List Ingrediente) (dados : List ReceitaItem) :
    List Receita :=
  dados.map fun item =>
    let ingredientes_receita := item.ingredientes.filterMap (resolveIngrediente ingredientes)
    ⟨item.nome, ingredientes_receita,
     item.rendimento_total.getD ((ingredientes_receita.map fun p => p.2).sum)⟩

/-- `DataManager.salvar_receitas` (src/main.py lines 118-131). -/
def salvar_receitas (receitas : List Receita) : List ReceitaItem :=
  receitas.map fun r =>
    ⟨r.nome, r.ingredientes.map fun p => (p.1.nome, p.2), some r.rendimento_total⟩

/-! ### Helper lemmas about resolution -/

lemma find?_nome_eq {ingredientes : List Ingrediente} {n : String} {i : Ingrediente}
    (h : ingredientes.find? (fun i => i.nome == n) = some i) : i.nome = n := by
  have := List.find?_some h
  simpa using this

lemma filterMap_resolve (ingredientes : List Ingrediente) (l : List (String × ℚ)) :
    (l.filterMap (resolveIngrediente ingredientes)).map (fun p => (p.1.nome, p.2))
      = l.filter (fun par => ingredientes.any fun i => i.nome == par.1) := by
  induction l with
  | nil => rfl
  | cons hd tl ih =>
    rw [List.filterMap_cons, List.filter_cons]
    cases hfind : ingredientes.find? (fun i => i.nome == hd.1) with
    | none =>
      have hany : (ingredientes.any fun i => i.nome == hd.1) = false := by
        rw [List.any_eq_false]
        intro i hi
        have := List.find?_eq_none.mp hfind i hi
        simpa using this
      simp [resolveIngrediente, hfind, hany, ih]
    | some ing =>
      have hname : ing.nome = hd.1 := find?_nome_eq hfind
      have hany : (ingredientes.any fun i => i.nome == hd.1) = true := by
        rw [List.any_eq_true]
        exact ⟨ing, List.mem_of_find?_eq_some hfind, by simp [hname]⟩
      simp [resolveIngrediente, hfind, hany, ih, hname]

lemma salvar_carregar_receitas_aux (catalogo : List Ingrediente) (receitas : List Receita)
    (h : ∀ r ∈ receitas, ∀ p ∈ r.ingredientes, ∃ i ∈ catalogo, i.nome = p.1.nome) :
    salvar_receitas (carregar_receitas catalogo (salvar_receitas receitas))
      = salvar_receitas receitas := by
  induction receitas with
  | nil => rfl
  | cons r rs ih =>
    have hr : ∀ p ∈ r.ingredientes, ∃ i ∈ catalogo, i.nome = p.1.nome :=
      h r (List.mem_cons_self _ _)
    have ih' := ih fun r' h' => h r' (List.mem_cons_of_mem _ h')
    simp only [salvar_receitas, carregar_receitas, List.map_cons] at ih' ⊢
    congr 1
    rw [ReceitaItem.mk.injEq]
    refine ⟨rfl, ?_, by simp⟩
    rw [filterMap_resolve, List.filter_eq_self]
    intro par hpar
    obtain ⟨p, hp, hpe⟩ := List.mem_map.mp hpar
    obtain ⟨i, hi, hnome⟩ := hr p hp
    rw [List.any_eq_true]
    exact ⟨i, hi, by rw [← hpe]; simp [hnome]⟩

/-- C7: saving the ingredient catalog and reloading it reproduces every
ingredient record exactly, and — when every recipe references only
catalog names — saving the recipe catalog and reloading it reproduces
every recipe's name, (ingredient-name, quantity) list and total yield
(stated as: re-saving the reloaded recipes writes the same records). -/
theorem salvar_carregar_roundtrip (catalogo : List Ingrediente) (receitas : List Receita)
    (h : ∀ r ∈ receitas, ∀ p ∈ r.ingredientes, ∃ i ∈ catalogo, i.nome = p.1.nome) :
    carregar_ingredientes (salvar_ingredientes catalogo) = catalogo
    ∧ salvar_receitas (carregar_receitas catalogo (salvar_receitas receitas))
      = salvar_receitas receitas := by
  constructor
  · rw [salvar_ingredientes, carregar_ingredientes, List.map_map]
    have hpt : catalogo.map ((fun item : IngredienteItem =>
        (⟨item.nome, item.carboidrato_por_g, item.proteina_por_g, item.gordura_por_g,
          item.fibra_por_g, item.sodio_por_g⟩ : Ingrediente)) ∘ Ingrediente.to_dict)
        = catalogo.map id := List.map_congr_left fun i _ => rfl
    rw [hpt, List.map_id]
  · exact salvar_carregar_receitas_aux catalogo receitas h

/-- Witness for C7: catalog [A, B], recipes [Rice]. -/
theorem salvar_carregar_roundtrip_witness :
    (∀ r ∈ [receitaRice], ∀ p ∈ r.ingredientes,
      ∃ i ∈ [ingredienteA, ingredienteB], i.nome = p.1.nome)
    ∧ (carregar_ingredientes (salvar_ingredientes [ingredienteA, ingredienteB])
        = [ingredienteA, ingredienteB]
      ∧ salvar_receitas (carregar_receitas [ingredienteA, ingredienteB]
          (salvar_receitas [receitaRice]))
        = salvar_receitas [receitaRice]) :=
  have h : ∀ r ∈ [receitaRice], ∀ p ∈ r.ingredientes,
      ∃ i ∈ [ingredienteA, ingredienteB], i.nome = p.1.nome := by
    intro r hr p hp
    rw [List.mem_singleton.mp hr] at hp
    simp only [receitaRice] at hp
    rcases List.mem_cons.mp hp with h1 | h1
    · exact ⟨ingredienteA, by simp, by rw [h1]⟩
    · rw [List.mem_singleton.mp h1]
      exact ⟨ingredienteB, by simp, rfl⟩
  ⟨h, salvar_carregar_roundtrip [ingredienteA, ingredienteB] [receitaRice] h⟩

/-- C8: loading recipes resolves each stored (name, quantity) pair against
the catalog, silently dropping exactly the pairs whose name is absent and
keeping the resolving pairs with their quantities in order (the load is a
total function — it raises no error); the recipe names load unchanged. -/
theorem carregar_receitas_drops_dangling (ingredientes : List Ingrediente)
    (dados : List ReceitaItem) :
    (carregar_receitas ingredientes dados).map
        (fun r => r.ingredientes.map fun p => (p.1.nome, p.2))
      = dados.map (fun item => item.ingredientes.filter
          fun par => ingredientes.any fun i => i.nome == par.1)
    ∧ (carregar_receitas ingredientes dados).map Receita.nome
      = dados.map ReceitaItem.nome := by
  constructor
  · rw [carregar_receitas, List.map_map]
    exact List.map_congr_left fun item _ => filterMap_resolve ingredientes item.ingredientes
  · rw [carregar_receitas, List.map_map]
    rfl

/-! ### In-memory application state and cascading ingredient deletion -/

/-- The in-memory state `NutritionApp` keeps: `self.ingredientes` and
`self.receitas` (src/main.py lines 288-289). -/
structure AppState where
  ingredientes : List Ingrediente
  receitas : List Receita
deriving DecidableEq, Repr

/-- The state effect of `NutritionApp._deletar_ingrediente` (src/main.py
lines 866-894) once the user confirms: find the first catalog ingredient
with the given name; if found, remove that entry and filter every recipe's
ingredient list down to the pairs whose ingredient name differs; if no
catalog entry has the name, nothing changes. -/
def deletar_ingrediente (s : AppState) (nome : String) : AppState :=
  match s.ingredientes.find? (fun i => i.nome == nome) with
  | none => s
  | some _ =>
    { ingredientes := s.ingredientes.eraseP (fun i => i.nome == nome)
      receitas := s.receitas.map fun receita =>
        { receita with
          ingredientes := receita.ingredientes.filter fun p => !(p.1.nome == nome) } }

lemma eraseP_nome_eq_filter (l : List Ingrediente) (n : String)
    (huniq : l.Pairwise fun a b => a.nome ≠ b.nome) :
    l.eraseP (fun i => i.nome == n) = l.filter fun i => !(i.nome == n) := by
  induction l with
  | nil => rfl
  | cons hd tl ih =>
    rcases List.pairwise_cons.mp huniq with ⟨hhd, htl⟩
    by_cases hn : hd.nome = n
    · rw [List.eraseP_cons, List.filter_cons]
      simp only [hn, beq_self_eq_true, cond_true, Bool.not_true]
      rw [if_neg (by simp)]
      symm
      rw [List.filter_eq_self]
      intro a ha
      have : a.nome ≠ n := fun he => hhd a ha (hn.trans he.symm)
      simp [this]
    · rw [List.eraseP_cons, List.filter_cons]
      have hb : (hd.nome == n) = false := by simp [hn]
      simp only [hb, cond_false, Bool.not_false, if_pos trivial, ih htl]

/-- C6: with the catalog invariant that ingredient names are unique, and
an ingredient of the given name present, deleting it removes it from the
catalog and removes exactly the pairs bearing that name from every recipe,
leaving all other catalog entries and recipe pairs unchanged in order. -/
theorem deletar_ingrediente_cascata (s : AppState) (n : String)
    (hmem : ∃ i ∈ s.ingredientes, i.nome = n)
    (huniq : s.ingredientes.Pairwise fun a b => a.nome ≠ b.nome) :
    (∀ i ∈ (deletar_ingrediente s n).ingredientes, i.nome ≠ n)
    ∧ (deletar_ingrediente s n).ingredientes
      = s.ingredientes.filter (fun i => !(i.nome == n))
    ∧ (deletar_ingrediente s n).receitas
      = s.receitas.map fun r =>
          { r with ingredientes := r.ingredientes.filter fun p => !(p.1.nome == n) } := by
  obtain ⟨i0, hi0, hn0⟩ := hmem
  have hfind : (s.ingredientes.find? fun i => i.nome == n).isSome := by
    rw [List.find?_isSome]
    exact ⟨i0, hi0, by simp [hn0]⟩
  obtain ⟨ifound, hif⟩ := Option.isSome_iff_exists.mp hfind
  have e1 : (deletar_ingrediente s n).ingredientes
      = s.ingredientes.filter fun i => !(i.nome == n) := by
    simp only [deletar_ingrediente, hif]
    exact eraseP_nome_eq_filter s.ingredientes n huniq
  have e2 : (deletar_ingrediente s n).receitas
      = s.receitas.map fun r =>
          { r with ingredientes := r.ingredientes.filter fun p => !(p.1.nome == n) } := by
    simp only [deletar_ingrediente, hif]
  refine ⟨?_, e1, e2⟩
  intro i hi
  rw [e1] at hi
  have := (List.mem_filter.mp hi).2
  simpa using this

/-- An example application state: catalog [A, B], one recipe "Rice". -/
def appExemplo : AppState := ⟨[ingredienteA, ingredienteB], [receitaRice]⟩

/-- Witness for C6: deleting "A" from the example state. -/
theorem deletar_ingrediente_cascata_witness :
    ((∃ i ∈ appExemplo.ingredientes, i.nome = "A")
      ∧ appExemplo.ingredientes.Pairwise fun a b => a.nome ≠ b.nome)
    ∧ ((∀ i ∈ (deletar_ingrediente appExemplo "A").ingredientes, i.nome ≠ "A")
      ∧ (deletar_ingrediente appExemplo "A").ingredientes
        = appExemplo.ingredientes.filter (fun i => !(i.nome == "A"))
      ∧ (deletar_ingrediente appExemplo "A").receitas
        = appExemplo.receitas.map fun r =>
            { r with ingredientes := r.ingredientes.filter fun p => !(p.1.nome == "A") }) :=
  have hmem : ∃ i ∈ appExemplo.ingredientes, i.nome = "A" :=
    ⟨ingredienteA, by simp [appExemplo], rfl⟩
  have huniq : appExemplo.ingredientes.Pairwise fun a b => a.nome ≠ b.nome := by
    simp [appExemplo, List.pairwise_cons, ingredienteA, ingredienteB]
  ⟨⟨hmem, huniq⟩, deletar_ingrediente_cascata appExemplo "A" hmem huniq⟩

/-! ### `DataManager.deletar_receita` and the missing-argument TypeError -/

/-- A Python run-time error, here only the TypeError raised when a call
binds too few positional arguments. -/
inductive PyError where
  | typeError (msg : String)
deriving DecidableEq, Repr

/-- Python-level call of `DataManager.carregar_receitas(cls, ingredientes)`
with an explicit argument list: binding the arguments happens before the
function body (and hence before its internal try/except) runs, so a call
with no argument raises TypeError (src/main.py lines 89-90). -/
def carregar_receitas_chamada (args : List (List Ingrediente))
    (dados : List ReceitaItem) : Except PyError (List Receita) :=
  match args with
  | [ingredientes] => .ok (carregar_receitas ingredientes dados)
  | _ => .error (.typeError
      "carregar_receitas missing 1 required positional argument: ingredientes")

/-- `DataManager.deletar_receita` (src/main.py lines 139-143): it invokes
`cls.carregar_receitas()` with no argument, then filters by name and
saves.  The input is the stored recipe file; a returned `.ok` value would
be the rewritten file, while `.error` means the save line was never
reached and the file is untouched. -/
def deletar_receita (receitas_file : List ReceitaItem) (nome : String) :
    Except PyError (List ReceitaItem) :=
  match carregar_receitas_chamada [] receitas_file with
  | .error e => .error e
  | .ok receitas => .ok (salvar_receitas (receitas.filter fun r => !(r.nome == nome)))

/-- C9: for every stored recipe file and every name,
`DataManager.deletar_receita` raises TypeError — its call of
`carregar_receitas` omits the required `ingredientes` argument — so it
never reaches the save and never returns a rewritten file. -/
theorem deletar_receita_type_error (receitas_file : List ReceitaItem) (nome : String) :
    deletar_receita receitas_file nome
      = .error (.typeError
          "carregar_receitas missing 1 required positional argument: ingredientes")
    ∧ ∀ novo, deletar_receita receitas_file nome ≠ .ok novo := by
  constructor
  · rfl
  · intro novo h
    exact Except.noConfusion h

/-! ### Report generator (`GeradorPDF`) -/

/-- The daily-value reference record (`ValoresDiarios`, src/main.py lines
176-197), with the six keys the PDF generator reads. -/
structure ValoresDiariosRec where
  carboidratos : ℚ
  proteinas : ℚ
  gorduras_totais : ℚ
  valor_energetico : ℚ
  fibras : ℚ
  sodio : ℚ
deriving DecidableEq, Repr

/-- The built-in default daily values returned by `ValoresDiarios.carregar`
when no file exists (src/main.py lines 184-192). -/
def valores_diarios_default : ValoresDiariosRec := ⟨300, 75, 55, 2000, 30, 5000⟩

/-- The numeric content of the table built by
`GeradorPDF.gerar_tabela_nutricional` (src/main.py lines 199-276):
the kcal/kJ energy values and the six daily-value percentages. -/
structure TabelaNutricional where
  kcal : ℚ
  kj : ℚ
  pct_carboidratos : ℚ
  pct_proteina : ℚ
  pct_gordura : ℚ
  pct_kcal : ℚ
  pct_fibra : ℚ
  pct_sodio : ℚ
deriving DecidableEq, Repr

/-- `GeradorPDF.gerar_tabela_nutricional`, numeric part (src/main.py lines
208-222): kcal is recomputed from the carbohydrate, protein and fat fields
of the totals record; kJ is kcal times 4.184. -/
def gerar_tabela_nutricional (vd : ValoresDiariosRec) (dados_nutricionais : Totais) :
    TabelaNutricional :=
  let kcal := dados_nutricionais.carboidratos * 4 + dados_nutricionais.proteina * 4 +
    dados_nutricionais.gordura * 9
  let kj := kcal * (4184/1000)
  { kcal := kcal
    kj := kj
    pct_carboidratos := dados_nutricionais.carboidratos / vd.carboidratos * 100
    pct_proteina := dados_nutricionais.proteina / vd.proteinas * 100
    pct_gordura := dados_nutricionais.gordura / vd.gorduras_totais * 100
    pct_kcal := kcal / vd.valor_energetico * 100
    pct_fibra := dados_nutricionais.fibra / vd.fibras * 100
    pct_sodio := dados_nutricionais.sodio / vd.sodio * 100 }

/-- C10: the PDF's energy value is recomputed as 4·carbohydrates +
4·protein + 9·fat from the (already rounded) totals record, with
kJ = kcal · 4.184, ignoring the calculator's own `calorias` field — and
there is a calculator input on which this recomputed kcal differs from the
returned `calorias` total. -/
theorem gerar_tabela_recomputa_kcal :
    (∀ (vd : ValoresDiariosRec) (dados : Totais),
      (gerar_tabela_nutricional vd dados).kcal
        = dados.carboidratos * 4 + dados.proteina * 4 + dados.gordura * 9
      ∧ (gerar_tabela_nutricional vd dados).kj
        = (gerar_tabela_nutricional vd dados).kcal * (4184/1000))
    ∧ ∃ t, calcular_por_porcao [(receitaDelta, 1)] = .ok t
      ∧ (gerar_tabela_nutricional valores_diarios_default t).kcal ≠ t.calorias := by
  refine ⟨fun vd dados => ⟨rfl, rfl⟩, ⟨⟨0, 0, 0, 0, 0, 1/50⟩, ?_, ?_⟩⟩
  · norm_num [calcular_por_porcao, calcLoop, contribIngrediente, totZero, roundTotais,
      receitaDelta, ingredienteDelta, round2, pyRound, Except.map, List.foldl]
  · norm_num [gerar_tabela_nutricional]
